import Mathlib

/-!
Shallow embedding of the In-Car Monitoring backend (src/app.py) and proofs
about its observable behavior.

The backend is a FastAPI app with four data-relevant operations:
`log_summary` (POST /api/log-summary), `get_today_logs` (GET /api/logs/today),
`get_stats` (GET /api/stats), plus health endpoints.  Persistence is a daily
append-only JSON-Lines file.

Modelling choices:
* JSON values produced by `json.loads` / consumed by `json.dumps` are the
  mutual inductive `JValue` / `JList` / `JFields`; a Python dict is a `JFields`
  association list with distinct keys (insertion order preserved, as in
  Python 3.7+).  Floats are carried as `Rat`: the code never performs float
  arithmetic on metadata fields (it only copies them), so any carrier with
  decidable equality is faithful for the properties proved here.
* The day file is `FileState := Option (List Line)`: `none` when the file does
  not exist, otherwise the list of physical lines.  A line is blank, a line
  holding one JSON value (what `json.dumps(obj) + "\n"` writes and
  `json.loads` reads back), or malformed text on which `json.loads` raises.
* `datetime.now()` results are threaded as explicit `String` parameters
  (`today` for the date used in the filename, `now` / `server_now` for the
  two separate `isoformat()` calls in `log_summary` and `log_to_file`).
* I/O is modelled on its success path: `log_to_file` catches exceptions and
  returns False on failure, and `log_summary` then answers 500; every claim
  below conditions on the append succeeding, so only the successful append is
  embedded.
* The `sessions` Python set of `get_stats` is a `Finset PyKey`, where `pyKey`
  maps each JSON value to its Python hash/equality class: `set.add` raises
  `TypeError` on unhashable values (lists, dicts), and Python equality
  identifies `True`, `1` and `1.0` (numbers compare by exact value across
  `bool`/`int`/`float`) while `None` and strings form their own classes.
* Request-body validation is performed by pydantic before `log_summary` runs.
  `parseSummaryLogRequest` models the documented pydantic v1 semantics for
  field presence and basic types (FastAPI answers 422 on validation failure);
  string-to-number coercion is not modelled since no property proved here
  depends on it, only on the presence or absence of required keys.
-/

namespace InCarMonitoring

mutual

/-- A JSON value, as parsed by `json.loads` or serialized by `json.dumps`. -/
inductive JValue where
  | jnull
  | jbool (b : Bool)
  | jint (n : Int)
  | jfloat (q : Rat)
  | jstr (s : String)
  | jarr (elems : JList)
  | jobj (fields : JFields)
deriving DecidableEq

/-- A JSON array's elements. -/
inductive JList where
  | nil
  | cons (hd : JValue) (tl : JList)
deriving DecidableEq

/-- A JSON object's fields: an association list with distinct keys in
insertion order, modelling a Python dict. -/
inductive JFields where
  | fnil
  | fcons (k : String) (v : JValue) (tl : JFields)
deriving DecidableEq

end

/-- Dict key lookup: `d[k]` / `d.get(k)` on a parsed JSON object. -/
def JFields.lookup : JFields → String → Option JValue
  | .fnil, _ => none
  | .fcons k v tl, key => if k = key then some v else tl.lookup key

/-- Build a `JFields` from a Lean list of key-value pairs (insertion order). -/
def JFields.ofList : List (String × JValue) → JFields
  | [] => .fnil
  | (k, v) :: rest => .fcons k v (JFields.ofList rest)

/-- Appending one more key (used for `data["server_timestamp"] = ...` on a
dict that does not yet contain the key, which is the case at the only call
site). -/
def JFields.push : JFields → String → JValue → JFields
  | .fnil, k, v => .fcons k v .fnil
  | .fcons k0 v0 tl, k, v => .fcons k0 v0 (tl.push k v)

/-- `MonitoringMetadata` pydantic model (src/app.py lines 35-41). -/
structure MonitoringMetadata where
  framesProcessed : Int
  peopleDetected : Int
  processingTimeSeconds : Rat
  videoSource : String
  inferenceTimeMs : Rat
  totalDetections : Int
deriving DecidableEq

/-- `request.metadata.dict()`: the dict pydantic builds from the model, with
the camelCase field names, in declaration order. -/
def MonitoringMetadata.dict (m : MonitoringMetadata) : JValue :=
  .jobj (JFields.ofList
    [("framesProcessed", .jint m.framesProcessed),
     ("peopleDetected", .jint m.peopleDetected),
     ("processingTimeSeconds", .jfloat m.processingTimeSeconds),
     ("videoSource", .jstr m.videoSource),
     ("inferenceTimeMs", .jfloat m.inferenceTimeMs),
     ("totalDetections", .jint m.totalDetections)])

/-- `SummaryLogRequest` pydantic model (src/app.py lines 43-47). -/
structure SummaryLogRequest where
  session_id : String
  summary : String
  metadata : MonitoringMetadata
  timestamp : Option String
deriving DecidableEq

/-- `SummaryLogResponse` pydantic model (src/app.py lines 49-53). -/
structure SummaryLogResponse where
  status : String
  message : String
  log_id : String
  timestamp : String
deriving DecidableEq

/-- One physical line of the day file.  `jsonLine j` is a line whose text is
the JSON serialization of `j` (every line written by `log_to_file` has this
form); `malformed` is a non-blank line on which `json.loads` raises. -/
inductive Line where
  | blank
  | jsonLine (j : JValue)
  | malformed (raw : String)
deriving DecidableEq

/-- The state of the current day's log file: `none` when it does not exist. -/
def FileState : Type := Option (List Line)

/-- `get_log_filename` (src/app.py lines 58-61). -/
def get_log_filename (today : String) : String :=
  "logs/monitoring_logs_" ++ today ++ ".jsonl"

/-- `log_to_file` (src/app.py lines 63-79), success path: adds
`server_timestamp` to the dict and appends one JSON line to the day file,
creating the file when absent. -/
def log_to_file (data : JFields) (server_now : String) (file : FileState) :
    FileState :=
  let data' := data.push "server_timestamp" (.jstr server_now)
  some ((file.getD []) ++ [Line.jsonLine (.jobj data')])

/-- `request.timestamp or datetime.now().isoformat()` (src/app.py line 110):
Python `or` takes the right operand when the left is falsy, i.e. `None` or
the empty string. -/
def resolveTimestamp (t : Option String) (now : String) : String :=
  match t with
  | none => now
  | some s => if s = "" then now else s

/-- `json.dumps` image of an `Optional[str]` value (`None` becomes `null`). -/
def jsonOfOptStr : Option String → JValue
  | none => .jnull
  | some s => .jstr s

/-- `log_summary` (src/app.py lines 100-137), success path: builds the
`log_data` dict and appends it through `log_to_file`; answers the
`SummaryLogResponse`. -/
def log_summary (req : SummaryLogRequest) (log_id now server_now : String)
    (file : FileState) : SummaryLogResponse × FileState :=
  let timestamp := resolveTimestamp req.timestamp now
  let log_data := JFields.ofList
    [("log_id", .jstr log_id),
     ("session_id", .jstr req.session_id),
     ("client_timestamp", jsonOfOptStr req.timestamp),
     ("summary", .jstr req.summary),
     ("metadata", req.metadata.dict),
     ("timestamp", .jstr timestamp)]
  (⟨"success", "Summary logged successfully", log_id, timestamp⟩,
   log_to_file log_data server_now file)

/-- The JSON object `log_summary` persists for a given request: `log_data`
plus the `server_timestamp` key added by `log_to_file`. -/
def persistedRecord (req : SummaryLogRequest) (log_id now server_now : String) :
    JValue :=
  .jobj (JFields.ofList
    [("log_id", .jstr log_id),
     ("session_id", .jstr req.session_id),
     ("client_timestamp", jsonOfOptStr req.timestamp),
     ("summary", .jstr req.summary),
     ("metadata", req.metadata.dict),
     ("timestamp", .jstr (resolveTimestamp req.timestamp now)),
     ("server_timestamp", .jstr server_now)])

/-- Pydantic v1 acceptance for a required `str` field. -/
def validateStr : Option JValue → Option String
  | some (.jstr s) => some s
  | _ => none

/-- Pydantic v1 acceptance for a required `int` field (bools coerce to 0/1). -/
def validateInt : Option JValue → Option Int
  | some (.jint n) => some n
  | some (.jbool b) => some (if b then 1 else 0)
  | _ => none

/-- Pydantic v1 acceptance for a required `float` field (ints and bools
coerce). -/
def validateFloat : Option JValue → Option Rat
  | some (.jfloat q) => some q
  | some (.jint n) => some (n : Rat)
  | some (.jbool b) => some (if b then 1 else 0)
  | _ => none

/-- Pydantic validation of the `metadata` sub-object against
`MonitoringMetadata`: all six fields required with the given types. -/
def validateMetadata : JValue → Option MonitoringMetadata
  | .jobj f => do
    let fp ← validateInt (f.lookup "framesProcessed")
    let pd ← validateInt (f.lookup "peopleDetected")
    let pts ← validateFloat (f.lookup "processingTimeSeconds")
    let vs ← validateStr (f.lookup "videoSource")
    let itm ← validateFloat (f.lookup "inferenceTimeMs")
    let td ← validateInt (f.lookup "totalDetections")
    some ⟨fp, pd, pts, vs, itm, td⟩
  | _ => none

/-- Pydantic validation of a request body against `SummaryLogRequest`:
`session_id`, `summary` and `metadata` are required, `timestamp` is an
optional string defaulting to `None`.  `none` means FastAPI rejects the body
with a 422 validation error before `log_summary` runs. -/
def parseSummaryLogRequest (body : JValue) : Option SummaryLogRequest :=
  match body with
  | .jobj fields => do
    let session_id ← validateStr (fields.lookup "session_id")
    let summary ← validateStr (fields.lookup "summary")
    let metadata ← match fields.lookup "metadata" with
      | some m => validateMetadata m
      | none => none
    let timestamp ← match fields.lookup "timestamp" with
      | none => some none
      | some .jnull => some none
      | some (.jstr s) => some (some s)
      | some _ => none
    some ⟨session_id, summary, metadata, timestamp⟩
  | _ => none

/-- Outcome of a POST /api/log-summary call. -/
inductive LogSummaryResult where
  | success (resp : SummaryLogResponse)
  | clientError (status : Nat)
  | serverError (status : Nat) (detail : String)
deriving DecidableEq

/-- The full endpoint: pydantic validation (422 on failure, file untouched),
then `log_summary`. -/
def handle_log_summary (body : JValue) (log_id now server_now : String)
    (file : FileState) : LogSummaryResult × FileState :=
  match parseSummaryLogRequest body with
  | none => (.clientError 422, file)
  | some req =>
    let (resp, file') := log_summary req log_id now server_now file
    (.success resp, file')

/-- The read loop shared by `get_today_logs` and `get_stats` (src/app.py
lines 149-152 and 177-180): skip blank lines, `json.loads` each non-blank
line; a malformed line raises, failing the whole read. -/
def readLines : List Line → Option (List JValue)
  | [] => some []
  | .blank :: rest => readLines rest
  | .malformed _ :: _ => none
  | .jsonLine j :: rest => (readLines rest).map (j :: ·)

/-- `readLines` on a possibly-absent file (an absent file reads as empty). -/
def readLinesD (file : FileState) : Option (List JValue) :=
  readLines (file.getD [])

/-- Response of GET /api/logs/today. -/
inductive TodayLogsResult where
  | noLogs (message : String)
  | ok (logs : List JValue) (count : Nat) (log_file : String)
  | serverError (status : Nat) (detail : String)
deriving DecidableEq

/-- `get_today_logs` (src/app.py lines 139-161). -/
def get_today_logs (today : String) (file : FileState) : TodayLogsResult :=
  match file with
  | none => .noLogs "No logs for today"
  | some lines =>
    match readLines lines with
    | none => .serverError 500 "Failed to read logs"
    | some logs => .ok logs logs.length (get_log_filename today)

/-- GET /api/logs/today as a state transformer: the handler only opens the
file for reading, so the file state passes through unchanged. -/
def handle_get_today_logs (today : String) (file : FileState) :
    TodayLogsResult × FileState :=
  (get_today_logs today file, file)

/-- Python `+=` between the running total and a JSON value: defined on
numbers (and bools, which are ints in Python); anything else raises
`TypeError`, failing the whole stats computation. -/
def jadd : JValue → JValue → Option JValue
  | .jint a, .jint b => some (.jint (a + b))
  | .jint a, .jfloat b => some (.jfloat ((a : Rat) + b))
  | .jint a, .jbool b => some (.jint (a + if b then 1 else 0))
  | .jfloat a, .jint b => some (.jfloat (a + (b : Rat)))
  | .jfloat a, .jfloat b => some (.jfloat (a + b))
  | .jfloat a, .jbool b => some (.jfloat (a + if b then 1 else 0))
  | _, _ => none

/-- `d.get(k, default)` where `d` must be a dict (`.get` on a non-dict raises
`AttributeError`). -/
def dictGet (j : JValue) (k : String) (default : JValue) : Option JValue :=
  match j with
  | .jobj fields => some ((fields.lookup k).getD default)
  | _ => none

/-- Python hash/equality class of a hashable value, as a `set` element:
`None`, a number — where `True == 1 == 1.0` and `False == 0 == 0.0` compare
(and hash) equal across `bool`/`int`/`float` — or a string. -/
inductive PyKey where
  | noneKey
  | num (q : Rat)
  | str (s : String)
deriving DecidableEq

/-- What `set.add` does with a JSON value: unhashable values (lists and
dicts) raise `TypeError`; hashable ones join the set under Python equality,
which identifies booleans, ints and floats of equal numeric value. -/
def pyKey : JValue → Option PyKey
  | .jnull => some .noneKey
  | .jbool b => some (.num (if b then 1 else 0))
  | .jint n => some (.num (n : Rat))
  | .jfloat q => some (.num q)
  | .jstr s => some (.str s)
  | .jarr _ => none
  | .jobj _ => none

/-- Accumulator of the stats loop (src/app.py lines 172-175): counters plus
the `sessions` set, whose elements are Python equality classes. -/
structure StatsAcc where
  total_logs : Nat
  sessions : Finset PyKey
  total_frames : JValue
  total_people : JValue

/-- One iteration of the stats loop body (src/app.py lines 180-186) on a
parsed line: `log_entry["session_id"]` raises `KeyError` when absent (and
`TypeError` when the entry is not a dict); `sessions.add` raises `TypeError`
on an unhashable session id; `metadata` defaults to the empty dict; the two
metadata sums look up the snake_case keys with default 0.  `none` means the
iteration raised, failing the whole request with a 500. -/
def statsLine (acc : StatsAcc) (j : JValue) : Option StatsAcc :=
  match j with
  | .jobj fields => do
    let sid ← fields.lookup "session_id"
    let key ← pyKey sid
    let md := (fields.lookup "metadata").getD (.jobj .fnil)
    let fv ← dictGet md "frames_processed" (.jint 0)
    let pv ← dictGet md "people_detected" (.jint 0)
    let tf ← jadd acc.total_frames fv
    let tp ← jadd acc.total_people pv
    some ⟨acc.total_logs + 1, insert key acc.sessions, tf, tp⟩
  | _ => none

/-- The whole stats loop over the file's lines: skip blanks, fail on a
malformed line or a raising iteration. -/
def statsFold (acc : StatsAcc) : List Line → Option StatsAcc
  | [] => some acc
  | .blank :: rest => statsFold acc rest
  | .malformed _ :: _ => none
  | .jsonLine j :: rest =>
    match statsLine acc j with
    | none => none
    | some next => statsFold next rest

/-- Response of GET /api/stats.  `noLogs` is the
`message + empty stats object` answer for an absent file. -/
inductive StatsResult where
  | noLogs (message : String)
  | ok (total_logs unique_sessions : Nat)
       (total_frames_processed total_people_detected : JValue)
       (log_file : String)
  | serverError (status : Nat) (detail : String)
deriving DecidableEq

/-- `get_stats` (src/app.py lines 163-199). -/
def get_stats (today : String) (file : FileState) : StatsResult :=
  match file with
  | none => .noLogs "No logs for today"
  | some lines =>
    match statsFold ⟨0, ∅, .jint 0, .jint 0⟩ lines with
    | none => .serverError 500 "Failed to calculate stats"
    | some acc =>
      .ok acc.total_logs acc.sessions.card acc.total_frames acc.total_people
        (get_log_filename today)

/-- The `total_frames_processed` component of a stats response, when the
response carries stats at all. -/
def StatsResult.framesField : StatsResult → Option JValue
  | .ok _ _ f _ _ => some f
  | _ => none

/-- The `total_people_detected` component of a stats response. -/
def StatsResult.peopleField : StatsResult → Option JValue
  | .ok _ _ _ p _ => some p
  | _ => none

/-- The `total_logs` component of a stats response. -/
def StatsResult.totalLogsField : StatsResult → Option Nat
  | .ok t _ _ _ _ => some t
  | _ => none

/-- The `unique_sessions` component of a stats response. -/
def StatsResult.uniqueSessionsField : StatsResult → Option Nat
  | .ok _ u _ _ _ => some u
  | _ => none

/-- Field access on a record returned by `logs/today`. -/
def jfieldOf (j : JValue) (k : String) : Option JValue :=
  match j with
  | .jobj fields => fields.lookup k
  | _ => none

/-- Replaying a batch of accepted `log-summary` requests (each with its
generated `log_id` and the two clock readings) against a file state. -/
def appendAll (reqs : List (SummaryLogRequest × String × String × String))
    (file : FileState) : FileState :=
  reqs.foldl (fun f r => (log_summary r.1 r.2.1 r.2.2.1 r.2.2.2 f).2) file

/-- The line a replayed request appends. -/
def recordLine (r : SummaryLogRequest × String × String × String) : Line :=
  Line.jsonLine (persistedRecord r.1 r.2.1 r.2.2.1 r.2.2.2)

/-- True on lines that are not blank. -/
def nonBlank : Line → Bool
  | .blank => false
  | _ => true

/-- Number of non-blank lines in the file. -/
def countNonBlank (lines : List Line) : Nat :=
  (lines.filter nonBlank).length

/-- True when the file has a malformed (non-blank, unparseable) line. -/
def hasMalformed (lines : List Line) : Bool :=
  lines.any fun l => match l with
    | .malformed _ => true
    | _ => false

/-- The JSON values of the file's parseable lines, in order. -/
def jsonValues (lines : List Line) : List JValue :=
  lines.filterMap fun l => match l with
    | .jsonLine j => some j
    | _ => none

/-- The Python equality class of the `session_id` value of each line that
carries a hashable one, in order. -/
def sessionKeys (lines : List Line) : List PyKey :=
  lines.filterMap fun l => match l with
    | .jsonLine (.jobj f) => (f.lookup "session_id").bind pyKey
    | _ => none

/-- A JSON value Python can `+=` onto an int or float total. -/
def summable : JValue → Bool
  | .jint _ => true
  | .jfloat _ => true
  | .jbool _ => true
  | _ => false

/-- A running total: int or float. -/
def numeric : JValue → Bool
  | .jint _ => true
  | .jfloat _ => true
  | _ => false

/-- A (defaulted) metadata value on which the two stats lookups and sums do
not raise: a dict whose snake_case entries, when present at all, are
summable. -/
def metadataOk : JValue → Bool
  | .jobj mf =>
    summable ((mf.lookup "frames_processed").getD (.jint 0)) &&
    summable ((mf.lookup "people_detected").getD (.jint 0))
  | _ => false

/-- A line the stats loop processes without raising: blank, or a JSON object
with a hashable `session_id` value and whose (defaulted) metadata lookups
yield summable values. -/
def lineOk : Line → Bool
  | .blank => true
  | .malformed _ => false
  | .jsonLine (.jobj fields) =>
    ((fields.lookup "session_id").bind pyKey).isSome &&
    metadataOk ((fields.lookup "metadata").getD (.jobj .fnil))
  | .jsonLine _ => false

/-- A concrete metadata value used by the concrete instances below. -/
def exMetadata : MonitoringMetadata := ⟨10, 2, 1, "cam0", 5, 3⟩

/-- A concrete request used by the concrete instances below. -/
def exRequest (sid : String) (t : Option String) : SummaryLogRequest :=
  ⟨sid, "driver drowsy", exMetadata, t⟩

/-- A one-key record line carrying only a session id. -/
def exSessionLine (sid : String) : Line :=
  Line.jsonLine (.jobj (.ofList [("session_id", .jstr sid)]))

/-- A three-record day file with session ids a, a, b. -/
def exDayLines : List Line :=
  [exSessionLine "a", exSessionLine "a", exSessionLine "b"]

/-! ## Helper lemmas -/

/-- `log_summary` appends exactly one line, holding `persistedRecord`. -/
theorem log_summary_snd (req : SummaryLogRequest) (log_id now server_now : String)
    (file : FileState) :
    (log_summary req log_id now server_now file).2 =
      some ((file.getD []) ++ [Line.jsonLine (persistedRecord req log_id now server_now)]) :=
  rfl

/-- The read loop succeeds exactly on files without malformed lines, and then
returns the parsed lines in order. -/
theorem readLines_eq (lines : List Line) :
    readLines lines = if hasMalformed lines then none else some (jsonValues lines) := by
  induction lines with
  | nil => rfl
  | cons l rest ih =>
    cases l with
    | blank => simpa [readLines, hasMalformed, jsonValues] using ih
    | jsonLine j =>
      have hm : hasMalformed (Line.jsonLine j :: rest) = hasMalformed rest := by
        simp [hasMalformed]
      have hv : jsonValues (Line.jsonLine j :: rest) = j :: jsonValues rest := by
        simp [jsonValues]
      rw [readLines, ih, hm, hv]
      cases hr : hasMalformed rest <;> simp [hr]
    | malformed s => simp [readLines, hasMalformed]

/-- One stats iteration on a record written by `log_summary`: the session id
joins the set, and both metadata sums are unchanged because the snake_case
keys are absent from the camelCase metadata dict. -/
theorem statsLine_record (req : SummaryLogRequest) (log_id now server_now : String)
    (n : Nat) (S : Finset PyKey) (a b : Int) :
    statsLine ⟨n, S, .jint a, .jint b⟩ (persistedRecord req log_id now server_now) =
      some ⟨n + 1, insert (PyKey.str req.session_id) S, .jint a, .jint b⟩ := by
  simp [statsLine, persistedRecord, MonitoringMetadata.dict, JFields.ofList,
    JFields.lookup, pyKey, dictGet, jadd]

/-- Replaying requests against an existing file appends their records. -/
theorem appendAll_some (reqs : List (SummaryLogRequest × String × String × String))
    (ls : List Line) :
    appendAll reqs (some ls) = some (ls ++ reqs.map recordLine) := by
  induction reqs generalizing ls with
  | nil => simp [appendAll]
  | cons r rest ih =>
    simp only [appendAll, List.foldl_cons, List.map_cons] at *
    rw [log_summary_snd]
    simpa [recordLine] using ih (ls ++ [recordLine r])

/-- The stats loop over records written by `log_summary` never raises, counts
each record, and leaves both metadata sums untouched. -/
theorem statsFold_records (reqs : List (SummaryLogRequest × String × String × String)) :
    ∀ (n : Nat) (S : Finset PyKey) (a b : Int),
      ∃ S2, statsFold ⟨n, S, .jint a, .jint b⟩ (reqs.map recordLine) =
        some ⟨n + reqs.length, S2, .jint a, .jint b⟩ := by
  induction reqs with
  | nil => exact fun n S a b => ⟨S, by simp [statsFold]⟩
  | cons r rest ih =>
    intro n S a b
    obtain ⟨S2, h⟩ := ih (n + 1) (insert (PyKey.str r.1.session_id) S) a b
    refine ⟨S2, ?_⟩
    simp only [List.map_cons, statsFold, recordLine, statsLine_record]
    rw [h]
    simp [Nat.add_assoc, Nat.add_comm 1 rest.length]

/-- Adding a summable value to a numeric total succeeds and stays numeric. -/
theorem jadd_summable (a v : JValue) (ha : numeric a = true) (hv : summable v = true) :
    ∃ r, jadd a v = some r ∧ numeric r = true := by
  cases a <;> cases v <;> simp_all [numeric, summable, jadd]

/-- A line that is not blank and carries no `session_id` key makes the stats
iteration raise, independently of the accumulator. -/
theorem statsLine_none_of_no_sid (acc : StatsAcc) (fields : JFields)
    (h : fields.lookup "session_id" = none) :
    statsLine acc (.jobj fields) = none := by
  simp [statsLine, h]

/-- A file containing a record without `session_id` fails the whole stats
loop. -/
theorem statsFold_none_of_bad (lines : List Line) (fields : JFields)
    (hmem : Line.jsonLine (.jobj fields) ∈ lines)
    (h : fields.lookup "session_id" = none) :
    ∀ acc, statsFold acc lines = none := by
  induction lines with
  | nil => cases hmem
  | cons l rest ih =>
    intro acc
    cases l with
    | blank =>
      have : Line.jsonLine (.jobj fields) ∈ rest := by simpa using hmem
      simpa [statsFold] using ih this acc
    | malformed s => simp [statsFold]
    | jsonLine j =>
      rcases List.mem_cons.mp hmem with heq | hrest
      · obtain rfl : j = .jobj fields := by injection heq.symm
        simp [statsFold, statsLine_none_of_no_sid acc fields h]
      · cases hsl : statsLine acc j with
        | none => simp [statsFold, hsl]
        | some next => simpa [statsFold, hsl] using ih hrest next

theorem countNonBlank_cons_blank (rest : List Line) :
    countNonBlank (Line.blank :: rest) = countNonBlank rest := by
  simp [countNonBlank, List.filter_cons, nonBlank]

theorem countNonBlank_cons_json (j : JValue) (rest : List Line) :
    countNonBlank (Line.jsonLine j :: rest) = countNonBlank rest + 1 := by
  simp [countNonBlank, List.filter_cons, nonBlank]

theorem sessionKeys_cons_blank (rest : List Line) :
    sessionKeys (Line.blank :: rest) = sessionKeys rest := by
  simp [sessionKeys, List.filterMap_cons]

theorem sessionKeys_cons_json (fields : JFields) (key : PyKey) (rest : List Line)
    (hkey : (fields.lookup "session_id").bind pyKey = some key) :
    sessionKeys (Line.jsonLine (.jobj fields) :: rest) = key :: sessionKeys rest := by
  simp [sessionKeys, List.filterMap_cons, hkey]

/-- Destructuring an accepted metadata value. -/
theorem metadataOk_shape (v : JValue) (h : metadataOk v = true) :
    ∃ mf, v = .jobj mf ∧
      summable ((mf.lookup "frames_processed").getD (.jint 0)) = true ∧
      summable ((mf.lookup "people_detected").getD (.jint 0)) = true := by
  cases v <;> simp_all [metadataOk]

/-- The stats loop on a file of processable lines: never raises, counts the
non-blank lines into `total_logs`, and collects the session ids into the
session set. -/
theorem statsFold_ok (lines : List Line) :
    ∀ acc : StatsAcc, (∀ l ∈ lines, lineOk l = true) →
      numeric acc.total_frames = true → numeric acc.total_people = true →
      ∃ tf tp, statsFold acc lines =
        some ⟨acc.total_logs + countNonBlank lines,
              acc.sessions ∪ (sessionKeys lines).toFinset, tf, tp⟩ := by
  induction lines with
  | nil =>
    intro acc _ _ _
    refine ⟨acc.total_frames, acc.total_people, ?_⟩
    cases acc
    simp [statsFold, countNonBlank, sessionKeys]
  | cons l rest ih =>
    intro acc hok hf hp
    cases l with
    | blank =>
      obtain ⟨tf, tp, h⟩ := ih acc (fun x hx => hok x (List.mem_cons_of_mem _ hx)) hf hp
      refine ⟨tf, tp, ?_⟩
      rw [countNonBlank_cons_blank, sessionKeys_cons_blank]
      simpa [statsFold] using h
    | malformed s =>
      exact absurd (hok _ (List.mem_cons_self _ _)) (by simp [lineOk])
    | jsonLine j =>
      have hj := hok _ (List.mem_cons_self _ _)
      cases j with
      | jobj fields =>
        simp only [lineOk, Bool.and_eq_true] at hj
        obtain ⟨hsome, hmd⟩ := hj
        obtain ⟨key, hkey⟩ := Option.isSome_iff_exists.mp hsome
        obtain ⟨sid, hsid, hpk⟩ := Option.bind_eq_some.mp hkey
        obtain ⟨mf, hmdv, hfs, hps⟩ := metadataOk_shape _ hmd
        obtain ⟨tf1, htf1, hntf1⟩ := jadd_summable acc.total_frames _ hf hfs
        obtain ⟨tp1, htp1, hntp1⟩ := jadd_summable acc.total_people _ hp hps
        have hstep : statsLine acc (.jobj fields) =
            some ⟨acc.total_logs + 1, insert key acc.sessions, tf1, tp1⟩ := by
          simp [statsLine, hsid, hpk, hmdv, dictGet, htf1, htp1]
        obtain ⟨tf, tp, h⟩ := ih ⟨acc.total_logs + 1, insert key acc.sessions, tf1, tp1⟩
          (fun x hx => hok x (List.mem_cons_of_mem _ hx)) hntf1 hntp1
        refine ⟨tf, tp, ?_⟩
        simp only [statsFold, hstep]
        rw [h, countNonBlank_cons_json, sessionKeys_cons_json fields key rest hkey]
        simp only [List.toFinset_cons, Finset.insert_union, Finset.union_insert,
          StatsAcc.mk.injEq, Option.some.injEq, and_true, true_and]
        omega
      | jnull => simp [lineOk] at hj
      | jbool b => simp [lineOk] at hj
      | jint n => simp [lineOk] at hj
      | jfloat q => simp [lineOk] at hj
      | jstr s => simp [lineOk] at hj
      | jarr el => simp [lineOk] at hj

/-- Appending one parseable line extends a successful read by one value. -/
theorem readLines_append_json (ls : List Line) (j : JValue) :
    readLines (ls ++ [Line.jsonLine j]) = (readLines ls).map (· ++ [j]) := by
  induction ls with
  | nil => rfl
  | cons l rest ih =>
    cases l with
    | blank => simpa [readLines] using ih
    | malformed s => simp [readLines]
    | jsonLine j0 =>
      show (readLines (rest ++ [Line.jsonLine j])).map (j0 :: ·) =
        ((readLines rest).map (j0 :: ·)).map (· ++ [j])
      rw [ih]
      cases readLines rest <;> rfl

/-! ## Claims -/

/-- C1: every record persisted via `log_summary` stores its metadata under
the camelCase keys `framesProcessed` / `peopleDetected`, while `get_stats`
sums the snake_case keys `frames_processed` / `people_detected`; the lookups
therefore always take the default 0, so for any non-empty batch of persisted
records the reported `total_frames_processed` and `total_people_detected`
are 0. -/
theorem stats_metadata_sums_always_zero (today : String)
    (reqs : List (SummaryLogRequest × String × String × String)) (hne : reqs ≠ []) :
    (get_stats today (appendAll reqs none)).framesField = some (.jint 0) ∧
    (get_stats today (appendAll reqs none)).peopleField = some (.jint 0) := by
  cases reqs with
  | nil => exact absurd rfl hne
  | cons r rest =>
    have h1 : appendAll (r :: rest) none = some ((r :: rest).map recordLine) := by
      have h0 : appendAll (r :: rest) none =
          appendAll rest ((log_summary r.1 r.2.1 r.2.2.1 r.2.2.2 none).2) := rfl
      rw [h0, log_summary_snd]
      have h2 : ((none : FileState).getD []) ++
          [Line.jsonLine (persistedRecord r.1 r.2.1 r.2.2.1 r.2.2.2)] = [recordLine r] := rfl
      rw [h2, appendAll_some]
      simp
    obtain ⟨S2, hsf⟩ := statsFold_records (r :: rest) 0 ∅ 0 0
    rw [h1]
    simp only [List.map_cons] at hsf
    simp [get_stats, hsf, StatsResult.framesField, StatsResult.peopleField]

/-- C1 witness: one persisted record with 10 frames and 2 people still
reports both sums as 0. -/
theorem stats_metadata_sums_always_zero_witness :
    (get_stats "2024-01-01" (appendAll [(exRequest "a" none, "id1", "T1", "S1")] none)).framesField
        = some (.jint 0) ∧
    (get_stats "2024-01-01" (appendAll [(exRequest "a" none, "id1", "T1", "S1")] none)).peopleField
        = some (.jint 0) :=
  stats_metadata_sums_always_zero "2024-01-01" [(exRequest "a" none, "id1", "T1", "S1")]
    (by simp)

/-- C2 counterexample: when the day file does not exist, `get_stats` answers
the `message` response with an empty stats object, so it does not return
`unique_sessions = 0` and `total_logs = 0` as the claim states. -/
theorem stats_missing_file_counterexample :
    ¬ ((get_stats "2024-01-01" none).uniqueSessionsField = some 0 ∧
       (get_stats "2024-01-01" none).totalLogsField = some 0) := by
  simp [get_stats, StatsResult.uniqueSessionsField, StatsResult.totalLogsField]

/-- C2 (amended): on an existing but empty day file, `get_stats` returns
`unique_sessions = 0` and `total_logs = 0` with no error; on a non-existent
file it returns, with no error, the descriptive message with an empty stats
object instead. -/
theorem stats_empty_and_missing_file (today : String) :
    get_stats today (some []) = .ok 0 0 (.jint 0) (.jint 0) (get_log_filename today) ∧
    get_stats today none = .noLogs "No logs for today" := by
  constructor <;> simp [get_stats, statsFold]

/-- C3 counterexample: a valid request may carry the empty string as its
timestamp; Python's `or` then discards it, so neither the response timestamp
nor the persisted `timestamp` field equals the client-supplied value. -/
theorem effective_timestamp_counterexample :
    (exRequest "s1" (some "")).timestamp = some "" ∧
    (log_summary (exRequest "s1" (some "")) "id0" "2024-01-01T00:00:00" "2024-01-01T00:00:01"
        none).1.timestamp ≠ "" ∧
    jfieldOf (persistedRecord (exRequest "s1" (some "")) "id0" "2024-01-01T00:00:00"
        "2024-01-01T00:00:01") "timestamp" ≠ some (.jstr "") := by
  refine ⟨rfl, ?_, ?_⟩ <;> decide

/-- C3 (amended): the persisted record's and the success response's timestamp
equal the client-supplied timestamp whenever the request carries a non-empty
one, and otherwise (timestamp absent, or present but empty) equal the
server-generated current time. -/
theorem effective_timestamp_resolution (req : SummaryLogRequest)
    (log_id now server_now : String) (file : FileState) :
    (log_summary req log_id now server_now file).2 =
      some ((file.getD []) ++ [Line.jsonLine (persistedRecord req log_id now server_now)]) ∧
    (∀ t, req.timestamp = some t → t ≠ "" →
      (log_summary req log_id now server_now file).1.timestamp = t ∧
      jfieldOf (persistedRecord req log_id now server_now) "timestamp" = some (.jstr t)) ∧
    ((req.timestamp = none ∨ req.timestamp = some "") →
      (log_summary req log_id now server_now file).1.timestamp = now ∧
      jfieldOf (persistedRecord req log_id now server_now) "timestamp" = some (.jstr now)) := by
  refine ⟨log_summary_snd req log_id now server_now file, ?_, ?_⟩
  · intro t ht hne
    constructor
    · simp [log_summary, resolveTimestamp, ht, hne]
    · simp [jfieldOf, persistedRecord, JFields.ofList, JFields.lookup, resolveTimestamp,
        ht, hne]
  · intro ht
    rcases ht with ht | ht <;> constructor <;>
      simp [log_summary, jfieldOf, persistedRecord, JFields.ofList, JFields.lookup,
        resolveTimestamp, ht]

/-- C3 witness: a non-empty client timestamp is echoed; an absent one is
replaced by the server time. -/
theorem effective_timestamp_resolution_witness :
    (log_summary (exRequest "s1" (some "2024-05-05T10:00:00")) "i" "NOW" "SN" none).1.timestamp
        = "2024-05-05T10:00:00" ∧
    (log_summary (exRequest "s1" none) "i" "NOW" "SN" none).1.timestamp = "NOW" := by
  constructor
  · exact ((effective_timestamp_resolution (exRequest "s1" (some "2024-05-05T10:00:00"))
      "i" "NOW" "SN" none).2.1 "2024-05-05T10:00:00" rfl (by decide)).1
  · exact ((effective_timestamp_resolution (exRequest "s1" none)
      "i" "NOW" "SN" none).2.2 (Or.inl rfl)).1

/-- C4: after a successful `log_summary` append on a readable file,
`get_today_logs` returns the previous records followed by the new one, and
that record carries the submitted `session_id`, `summary` and `metadata`
values plus the server-added `log_id`, `server_timestamp` and resolved
`timestamp` fields. -/
theorem log_roundtrip (today log_id now server_now : String) (req : SummaryLogRequest)
    (file : FileState) (l : List JValue) (hread : readLinesD file = some l) :
    get_today_logs today (log_summary req log_id now server_now file).2 =
      .ok (l ++ [persistedRecord req log_id now server_now]) (l.length + 1)
        (get_log_filename today) ∧
    jfieldOf (persistedRecord req log_id now server_now) "session_id"
        = some (.jstr req.session_id) ∧
    jfieldOf (persistedRecord req log_id now server_now) "summary"
        = some (.jstr req.summary) ∧
    jfieldOf (persistedRecord req log_id now server_now) "metadata"
        = some req.metadata.dict ∧
    jfieldOf (persistedRecord req log_id now server_now) "log_id"
        = some (.jstr log_id) ∧
    jfieldOf (persistedRecord req log_id now server_now) "server_timestamp"
        = some (.jstr server_now) ∧
    jfieldOf (persistedRecord req log_id now server_now) "timestamp"
        = some (.jstr (resolveTimestamp req.timestamp now)) := by
  refine ⟨?_, ?_, ?_, ?_, ?_, ?_, ?_⟩
  · rw [log_summary_snd]
    have hr : readLines ((file.getD []) ++
        [Line.jsonLine (persistedRecord req log_id now server_now)]) =
        some (l ++ [persistedRecord req log_id now server_now]) := by
      rw [readLines_append_json]
      rw [show readLines (file.getD []) = some l from hread]
      rfl
    simp [get_today_logs, hr]
  all_goals simp [jfieldOf, persistedRecord, JFields.ofList, JFields.lookup]

/-- C4 witness: round trip of one record into an empty day. -/
theorem log_roundtrip_witness :
    get_today_logs "D" (log_summary (exRequest "a" none) "i" "T" "S" none).2 =
      .ok [persistedRecord (exRequest "a" none) "i" "T" "S"] 1 (get_log_filename "D") := by
  have h := log_roundtrip "D" "i" "T" "S" (exRequest "a" none) none [] rfl
  simpa using h.1

/-- C5: a request body (a JSON object) missing one of the required fields
`session_id`, `summary` or `metadata` is rejected by validation with a 422
client error, and the day file is left unchanged. -/
theorem missing_required_field_rejected (body : JValue) (fields : JFields)
    (log_id now server_now : String) (file : FileState)
    (hbody : body = .jobj fields)
    (hmiss : fields.lookup "session_id" = none ∨ fields.lookup "summary" = none ∨
             fields.lookup "metadata" = none) :
    handle_log_summary body log_id now server_now file = (.clientError 422, file) := by
  subst hbody
  rcases hmiss with h | h | h
  · simp [handle_log_summary, parseSummaryLogRequest, h, validateStr]
  · cases hs : validateStr (fields.lookup "session_id") <;>
      simp [handle_log_summary, parseSummaryLogRequest, h, hs, validateStr]
  · cases hs : validateStr (fields.lookup "session_id") <;>
      cases hm : validateStr (fields.lookup "summary") <;>
      simp [handle_log_summary, parseSummaryLogRequest, h, hs, hm]

/-- C5 witness: a body with only a `summary` field is rejected and the
(absent) day file stays absent. -/
theorem missing_required_field_rejected_witness :
    handle_log_summary (.jobj (.ofList [("summary", .jstr "x")])) "i" "T" "S" none =
      (.clientError 422, none) := by
  refine missing_required_field_rejected (.jobj (.ofList [("summary", .jstr "x")]))
    (.ofList [("summary", .jstr "x")]) "i" "T" "S" none rfl ?_
  left
  decide

/-- C6: on a day file whose lines the stats loop can process (records whose
`session_id` is a hashable value), `get_stats` reports `total_logs` = number
of non-blank lines and `unique_sessions` = number of distinct `session_id`
values, distinct in Python's set equality (which identifies equal-valued
booleans, ints and floats); in particular three records with the string
session ids a, a, b give `total_logs = 3` and `unique_sessions = 2`. -/
theorem stats_counts_sessions_and_lines (today : String) (lines : List Line)
    (hok : ∀ l ∈ lines, lineOk l = true) :
    ∃ tf tp, get_stats today (some lines) =
      .ok (countNonBlank lines) ((sessionKeys lines).toFinset.card) tf tp
        (get_log_filename today) := by
  obtain ⟨tf, tp, h⟩ := statsFold_ok lines ⟨0, ∅, .jint 0, .jint 0⟩ hok rfl rfl
  exact ⟨tf, tp, by simp [get_stats, h]⟩

/-- C6 witness: the a, a, b file reports 3 logs over 2 unique sessions. -/
theorem stats_counts_sessions_and_lines_witness :
    (get_stats "D" (some exDayLines)).totalLogsField = some 3 ∧
    (get_stats "D" (some exDayLines)).uniqueSessionsField = some 2 := by
  obtain ⟨tf, tp, h⟩ := stats_counts_sessions_and_lines "D" exDayLines (by decide)
  rw [h]
  constructor
  · show some (countNonBlank exDayLines) = some 3
    decide
  · show some (sessionKeys exDayLines).toFinset.card = some 2
    decide

/-- C7: `get_today_logs` on an existing file skips blank lines and parses
every non-blank line; it answers the full parsed sequence when every
non-blank line parses, and a 500 server error with no records as soon as the
file has one malformed line. -/
theorem today_logs_all_or_nothing (today : String) (lines : List Line) :
    get_today_logs today (some lines) =
      if hasMalformed lines then .serverError 500 "Failed to read logs"
      else .ok (jsonValues lines) (jsonValues lines).length (get_log_filename today) := by
  simp only [get_today_logs, readLines_eq]
  cases h : hasMalformed lines <;> simp [h]

/-- C8: two successive `logs/today` calls with no intervening write (same
file contents, same date) leave the file untouched and return identical
results. -/
theorem today_logs_idempotent (today : String) (file : FileState) :
    (handle_get_today_logs today ((handle_get_today_logs today file).2)).1 =
      (handle_get_today_logs today file).1 ∧
    (handle_get_today_logs today ((handle_get_today_logs today file).2)).2 = file :=
  ⟨rfl, rfl⟩

/-- C9: a present-but-empty client timestamp is treated as absent by the
`or` resolution — the effective timestamp is the server time — while the
persisted `client_timestamp` field stores the empty string verbatim. -/
theorem empty_timestamp_treated_as_absent (req : SummaryLogRequest)
    (log_id now server_now : String) (file : FileState) (h : req.timestamp = some "") :
    (log_summary req log_id now server_now file).1.timestamp = now ∧
    jfieldOf (persistedRecord req log_id now server_now) "timestamp"
        = some (.jstr now) ∧
    jfieldOf (persistedRecord req log_id now server_now) "client_timestamp"
        = some (.jstr "") := by
  refine ⟨?_, ?_, ?_⟩ <;>
    simp [log_summary, persistedRecord, jfieldOf, JFields.ofList, JFields.lookup,
      resolveTimestamp, jsonOfOptStr, h]

/-- C9 witness: concrete request with the empty-string timestamp. -/
theorem empty_timestamp_treated_as_absent_witness :
    (log_summary (exRequest "s" (some "")) "i" "NOW" "SN" none).1.timestamp = "NOW" ∧
    jfieldOf (persistedRecord (exRequest "s" (some "")) "i" "NOW" "SN") "timestamp"
        = some (.jstr "NOW") ∧
    jfieldOf (persistedRecord (exRequest "s" (some "")) "i" "NOW" "SN") "client_timestamp"
        = some (.jstr "") :=
  empty_timestamp_treated_as_absent (exRequest "s" (some "")) "i" "NOW" "SN" none rfl

/-- C10: a record without a `metadata` key but with a hashable `session_id`
is tolerated by `get_stats` (the defaulted empty dict contributes 0 to both
sums), but any record without a `session_id` key fails the whole stats
request with a 500 server error. -/
theorem stats_missing_key_behavior (today : String) (fields1 fields2 : JFields)
    (sid : JValue) (skey : PyKey) (lines : List Line)
    (h1 : fields1.lookup "session_id" = some sid)
    (h1k : pyKey sid = some skey)
    (h1m : fields1.lookup "metadata" = none)
    (h2 : fields2.lookup "session_id" = none)
    (hmem : Line.jsonLine (.jobj fields2) ∈ lines) :
    get_stats today (some [Line.jsonLine (.jobj fields1)]) =
      .ok 1 1 (.jint 0) (.jint 0) (get_log_filename today) ∧
    get_stats today (some lines) = .serverError 500 "Failed to calculate stats" := by
  constructor
  · simp [get_stats, statsFold, statsLine, h1, h1k, h1m, dictGet, jadd, JFields.lookup]
  · have hnone := statsFold_none_of_bad lines fields2 hmem h2 ⟨0, ∅, .jint 0, .jint 0⟩
    simp [get_stats, hnone]

/-- C10 witness: a metadata-less record with a string session id is counted;
a session-less record fails the request. -/
theorem stats_missing_key_behavior_witness :
    get_stats "D" (some [exSessionLine "s"]) =
      .ok 1 1 (.jint 0) (.jint 0) (get_log_filename "D") ∧
    get_stats "D" (some [Line.jsonLine (.jobj (.ofList [("x", .jnull)]))]) =
      .serverError 500 "Failed to calculate stats" :=
  stats_missing_key_behavior "D" (.ofList [("session_id", .jstr "s")])
    (.ofList [("x", .jnull)]) (.jstr "s") (.str "s")
    [Line.jsonLine (.jobj (.ofList [("x", .jnull)]))]
    (by decide) (by decide) (by decide) (by decide) (by decide)

end InCarMonitoring
